import Mathlib

/-!
# Verification of the Yellow Network SDK client core

A shallow embedding of `src/yellow/yellow-network-sdk.ts` (class
`YellowNetworkSDK`): the connection/authentication/session state machine,
the transfer path, the channel facade and the inbound-message dispatcher.

Modelling conventions, following the source's single-threaded
event-loop semantics:

* Each public call and each inbound frame is one atomic transition on
  `SDKState`; the class's mutable fields are the fields of `SDKState`.
* External collaborators (the nitrolite message builders, the wallet
  signer, the chain RPC) are modelled by outcome parameters on the
  transitions: a `Bool` for a builder/signer that either returns or
  throws, a `ChainOutcome` for an on-chain flow that either confirms or
  throws with a classified error.
* Frames written to the socket are accumulated in `sentFrames`; frames
  queued while disconnected go to `messageQueue` (mirroring
  `sendMessage`).
* Amounts are modelled as rationals: the source stores decimal strings
  produced by `formatUnits(amount, 18)` and compares their parsed
  numeric values; `formatUnits18` maps a wei amount to that value.
* `console.log` / listener notification have no effect on the modelled
  state and are dropped; listener sets are not part of the state.
-/

namespace YellowSDK

/-- A session key pair as produced by `generateSessionKey`. -/
structure SessionKey where
  privateKey : String
  address : String
deriving DecidableEq, Repr

/-- The `ConnectionStatus` from the source. -/
inductive ConnectionStatus where
  | Connecting
  | Connected
  | Disconnected
deriving DecidableEq, Repr

/-- The `AuthenticationState` from the source. -/
structure AuthenticationState where
  isAuthenticated : Bool
  isAuthAttempted : Bool
  sessionKey : Option SessionKey
  account : Option String
deriving DecidableEq, Repr

/-- The viem wallet client, reduced to what the SDK reads from it:
`walletClient.account?.address` (used as `application` in the challenge
payload). -/
structure WalletClient where
  accountAddress : Option String
deriving DecidableEq, Repr

/-- The `YellowNetworkConfig`; the constructor defaults `sessionDuration`
to 3600. -/
structure Config where
  wsUrl : String
  appName : String
  scope : String
  sessionDuration : Option Nat
deriving DecidableEq, Repr

/-- The `ChannelState` from the source; `balance` is the numeric value of the
stored decimal string. -/
structure ChannelState where
  isOpen : Bool
  balance : ℚ
  tokenAddress : String
  channelId : String
  lastUpdate : Nat
deriving DecidableEq, Repr

/-- Status of a `SwapSession`. -/
inductive SwapStatus where
  | created
  | channel_created
  | swap_initiated
  | completed
  | failed
deriving DecidableEq, Repr

/-- The `SwapSession` from the source. -/
structure SwapSession where
  sessionId : String
  participant : String
  fromToken : String
  toToken : String
  amount : String
  chainId : Nat
  timestamp : Nat
  expire : Nat
  status : SwapStatus
  channelId : Option String
  swapId : Option String
deriving DecidableEq, Repr

/-- The step-2 structured signature payload built in `handleAuthChallenge`
(the `authParams` handed to `createEIP712AuthMessageSigner`); `allowances`
is always the empty list and is omitted. -/
structure EIP712AuthParams where
  scope : String
  application : Option String
  participant : String
  expire : String
deriving DecidableEq, Repr

/-- Outbound frames, by the builder that produced them.  Only the fields
the claims inspect are carried; `authRequest` keeps the full
`AuthRequestParams` record from `startAuthentication`. -/
inductive Frame where
  | authRequest (address : String) (sessionKeyAddr : String) (appName : String)
      (expire : String) (scope : String) (application : String)
  | authVerify (payload : EIP712AuthParams)
  | balanceRequest (account : String)
  | transferReq (destination : String) (asset : String) (amount : String)
  | swapSessionCreate (sessionId : String)
  | swapChannelCreated (sessionId : String)
  | initiateSwap (sessionId : String) (swapId : String)
deriving DecidableEq, Repr

/-- The `TransferResult` from the source. -/
structure TransferResult where
  success : Bool
  error : Option String
deriving DecidableEq, Repr

/-- The `ChannelResult` from the source (the transaction hash is carried in
`txHash` when present). -/
structure ChannelResult where
  success : Bool
  channelId : Option String
  txHash : Option String
  error : Option String
deriving DecidableEq, Repr

/-- The mutable fields of a `YellowNetworkSDK` instance, together with the
credential store it reads and writes and the trace of frames written to
the socket. -/
structure SDKState where
  config : Config
  connectionStatus : ConnectionStatus
  authState : AuthenticationState
  walletClient : Option WalletClient
  balances : List (String × String)
  channels : List (String × ChannelState)
  isTransferring : Bool
  activeSwapSession : Option SwapSession
  sessionExpireTimestamp : String
  cachedSignature : Option String
  messageQueue : List Frame
  sentFrames : List Frame
  storedSessionKey : Option SessionKey
  storedJWT : Option String
deriving DecidableEq, Repr

/-- The `sendMessage`: write to the socket when it is open, else append to the
FIFO queue.  The socket is open exactly while the status is `Connected`. -/
def sendMessage (f : Frame) (s : SDKState) : SDKState :=
  if s.connectionStatus = .Connected then
    { s with sentFrames := s.sentFrames ++ [f] }
  else
    { s with messageQueue := s.messageQueue ++ [f] }

/-- The `initializeSessionKey`: reuse the stored key when present, otherwise
generate a fresh one (supplied here as `fresh`), store it and cache it. -/
def initSessionKey (fresh : SessionKey) (s : SDKState) : SDKState :=
  match s.storedSessionKey with
  | some k => { s with authState := { s.authState with sessionKey := some k } }
  | none =>
      { s with
        storedSessionKey := some fresh
        authState := { s.authState with sessionKey := some fresh } }

/-- The state after the constructor: everything empty and disconnected,
then `initializeSessionKey` (`checkExistingJWT` only logs). -/
def initialState (cfg : Config) (storedKey : Option SessionKey)
    (storedJWT : Option String) (fresh : SessionKey) : SDKState :=
  initSessionKey fresh
    { config := cfg
      connectionStatus := .Disconnected
      authState :=
        { isAuthenticated := false, isAuthAttempted := false
          sessionKey := none, account := none }
      walletClient := none
      balances := []
      channels := []
      isTransferring := false
      activeSwapSession := none
      sessionExpireTimestamp := ""
      cachedSignature := none
      messageQueue := []
      sentFrames := []
      storedSessionKey := storedKey
      storedJWT := storedJWT }

/-- The expiry string computed in `startAuthentication`:
`String(Math.floor(Date.now() / 1000) + (sessionDuration || 3600))`,
with `nowSec` the current time in seconds. -/
def expireString (nowSec : Nat) (cfg : Config) : String :=
  toString (nowSec + cfg.sessionDuration.getD 3600)

/-- The `startAuthentication`: require account and session key (else the
promise rejects and the state is untouched), mark the attempt, record the
expiry, build and send the auth-request frame; when the builder throws
(`buildOk = false`) clear the attempt flag again. -/
def startAuthentication (nowSec : Nat) (buildOk : Bool) (s : SDKState) : SDKState :=
  match s.authState.account, s.authState.sessionKey with
  | some acct, some key =>
      let exp := expireString nowSec s.config
      let s1 : SDKState :=
        { s with
          authState := { s.authState with isAuthAttempted := true }
          sessionExpireTimestamp := exp }
      if buildOk then
        sendMessage
          (.authRequest acct key.address s1.config.appName exp s1.config.scope acct) s1
      else
        { s1 with authState := { s1.authState with isAuthAttempted := false } }
  | _, _ => s

/-- The `authenticate(walletClient, account)`: record the signer and the
account, then start the handshake immediately when already connected. -/
def authenticate (w : WalletClient) (acct : String) (nowSec : Nat) (buildOk : Bool)
    (s : SDKState) : SDKState :=
  let s1 : SDKState :=
    { s with
      walletClient := some w
      authState := { s.authState with account := some acct } }
  if s1.connectionStatus = .Connected then startAuthentication nowSec buildOk s1 else s1

/-- The `tryAutoAuthenticate`: start the handshake only when account, session
key and signer are present, the transport is connected, and no attempt is
authenticated or in flight. -/
def tryAutoAuthenticate (nowSec : Nat) (buildOk : Bool) (s : SDKState) : SDKState :=
  if s.authState.account.isSome ∧ s.authState.sessionKey.isSome ∧
      s.connectionStatus = .Connected ∧ s.authState.isAuthenticated = false ∧
      s.authState.isAuthAttempted = false ∧ s.walletClient.isSome then
    startAuthentication nowSec buildOk s
  else s

/-- The `connect()`: a no-op while a socket is connecting or open; without a
configured URL force `Disconnected`; otherwise open a socket and move to
`Connecting`. -/
def connect (s : SDKState) : SDKState :=
  if s.connectionStatus = .Connecting ∨ s.connectionStatus = .Connected then s
  else if s.config.wsUrl = "" then { s with connectionStatus := .Disconnected }
  else { s with connectionStatus := .Connecting }

/-- The `socket.onopen` handler: status `Connected`, flush the queue in
FIFO order, then `tryAutoAuthenticate`. -/
def socketOpen (nowSec : Nat) (buildOk : Bool) (s : SDKState) : SDKState :=
  let s1 : SDKState :=
    { s with
      connectionStatus := .Connected
      sentFrames := s.sentFrames ++ s.messageQueue
      messageQueue := [] }
  tryAutoAuthenticate nowSec buildOk s1

/-- The `socket.onclose` / `socket.onerror` handlers: status
`Disconnected`. -/
def socketClosed (s : SDKState) : SDKState :=
  { s with connectionStatus := .Disconnected }

/-- The `disconnect()`: close the socket and force `Disconnected`. -/
def disconnect (s : SDKState) : SDKState :=
  { s with connectionStatus := .Disconnected }

/-- The `logout()`: drop the stored JWT and session key, reset the auth state,
signer, balances, channels and the transfer flag, then regenerate a
session key via `initializeSessionKey`. -/
def logout (fresh : SessionKey) (s : SDKState) : SDKState :=
  initSessionKey fresh
    { s with
      storedJWT := none
      storedSessionKey := none
      authState :=
        { isAuthenticated := false, isAuthAttempted := false
          sessionKey := none, account := none }
      walletClient := none
      balances := []
      channels := []
      isTransferring := false }

/-- The `authParams` record built in `handleAuthChallenge` for the EIP-712
signer, or `none` when the guard
`!walletClient || !sessionKey || !account || !sessionExpireTimestamp`
throws. -/
def mkChallengePayload (s : SDKState) : Option EIP712AuthParams :=
  match s.walletClient, s.authState.sessionKey, s.authState.account with
  | some w, some key, some _ =>
      if s.sessionExpireTimestamp = "" then none
      else
        some
          { scope := s.config.scope
            application := w.accountAddress
            participant := key.address
            expire := s.sessionExpireTimestamp }
  | _, _, _ => none

/-- The `handleAuthChallenge`: build the structured payload (the guard throw
propagates to `handleMessage`, reported by the returned `Bool`), sign and
send the verify frame; a rejected signature clears the attempt flag. -/
def handleAuthChallenge (signOk : Bool) (s : SDKState) : SDKState × Bool :=
  match mkChallengePayload s with
  | none => (s, true)
  | some p =>
      if signOk then (sendMessage (.authVerify p) s, false)
      else ({ s with authState := { s.authState with isAuthAttempted := false } }, false)

/-- The body of `fetchBalances`: require authentication, session key and
account (else throw), build and send the balance request; a builder
failure notifies and rethrows.  The `Bool` reports whether the promise
rejected. -/
def fetchBalances (buildOk : Bool) (s : SDKState) : SDKState × Bool :=
  match s.authState.account with
  | some acct =>
      if s.authState.isAuthenticated = true ∧ s.authState.sessionKey.isSome then
        if buildOk then (sendMessage (.balanceRequest acct) s, false)
        else (s, true)
      else (s, true)
  | none => (s, true)

/-- The `handleAuthSuccess`: flip `isAuthenticated`, store a server-issued
JWT when present, then fire-and-forget `fetchBalances` (its rejection is
caught and logged). -/
def handleAuthSuccess (jwt : Option String) (fetchOk : Bool) (s : SDKState) : SDKState :=
  let s1 : SDKState :=
    { s with authState := { s.authState with isAuthenticated := true } }
  let s2 : SDKState :=
    match jwt with
    | some t => { s1 with storedJWT := some t }
    | none => s1
  (fetchBalances fetchOk s2).1

/-- The `handleBalanceResponse`: replace the table wholesale, empty when the
snapshot is empty. -/
def handleBalanceResponse (bs : List (String × String)) (s : SDKState) : SDKState :=
  { s with balances := if bs.isEmpty then [] else bs }

/-- The `handleBalanceUpdate`: replace the table wholesale. -/
def handleBalanceUpdate (bs : List (String × String)) (s : SDKState) : SDKState :=
  { s with balances := bs }

/-- The `handleTransferResponse`: the authoritative confirmation clears the
in-flight flag. -/
def handleTransferResponse (s : SDKState) : SDKState :=
  { s with isTransferring := false }

/-- The `handleError`: mid-transfer, clear the in-flight flag and publish the
failure; otherwise treat the error as an authentication failure — drop
JWT and session key, reset the auth flags and regenerate a session key. -/
def handleError (fresh : SessionKey) (s : SDKState) : SDKState :=
  if s.isTransferring then { s with isTransferring := false }
  else
    initSessionKey fresh
      { s with
        storedJWT := none
        storedSessionKey := none
        authState :=
          { s.authState with isAuthenticated := false, isAuthAttempted := false } }

/-- The `TransferParams` from the source. -/
structure TransferParams where
  recipient : String
  amount : String
  asset : Option String
deriving DecidableEq, Repr

/-- The `transfer(params)`: require authentication; reject synchronously while
a transfer is outstanding; otherwise set the in-flight flag, sign the
transfer request with the session key and send it.  When the local
construction/signing step throws (`signOk = false`) the flag is cleared
and a failure result published before returning. -/
def transfer (p : TransferParams) (signOk : Bool) (s : SDKState) :
    SDKState × TransferResult :=
  if s.authState.isAuthenticated = false ∨ s.authState.sessionKey = none then
    (s, { success := false, error := some "Not authenticated" })
  else if s.isTransferring then
    (s, { success := false, error := some "Transfer already in progress" })
  else
    let s1 : SDKState := { s with isTransferring := true }
    if signOk then
      (sendMessage
        (.transferReq p.recipient ((p.asset.getD "usdc").toLower) p.amount) s1,
        { success := true, error := none })
    else
      ({ s1 with isTransferring := false },
        { success := false, error := some "Transfer failed" })

/-- The error classes distinguished by the channel facade's `catch`
blocks, by the substrings searched in `String(error)`. -/
inductive ErrKind where
  | approvalRejected
  | userRejected
  | other (msg : String)
deriving DecidableEq, Repr

/-- Outcome of an on-chain allowance/approve/deposit (or withdraw) flow:
either every awaited transaction confirmed, or some step threw with a
classified error. -/
inductive ChainOutcome where
  | success (txHash : String)
  | failure (kind : ErrKind)
deriving DecidableEq, Repr

/-- The channel key used for `this.channels`:
`tokenAddress + "-" + account`. -/
def channelKey (token acct : String) : String := token ++ "-" ++ acct

/-- JavaScript object-assignment on a string-keyed record: overwrite the
binding in place when the key exists (keys are unique in an object), else
append. -/
def insertChannel : List (String × ChannelState) → String → ChannelState →
    List (String × ChannelState)
  | [], k, v => [(k, v)]
  | p :: tl, k, v => if p.1 = k then (k, v) :: tl else p :: insertChannel tl k v

/-- Lookup in `this.channels`. -/
def lookupChannel (l : List (String × ChannelState)) (k : String) :
    Option ChannelState :=
  (l.find? (fun p => p.1 = k)).map (fun p => p.2)

/-- The numeric value of `formatUnits(amount, 18)` for a wei amount. -/
def formatUnits18 (amount : Nat) : ℚ := (amount : ℚ) / (10 ^ 18 : ℚ)

/-- The error message chosen by `openChannel` / `depositToChannel` on a
thrown on-chain step (the `depositToChannel` wording). -/
def classifyDepositError (k : ErrKind) : String :=
  match k with
  | .approvalRejected =>
      "Token approval was rejected. Please approve the USDC spend in your wallet to proceed."
  | .userRejected =>
      "Transaction was rejected. Please confirm the transaction in your wallet."
  | .other msg => "Deposit error: " ++ msg

/-- The error message chosen by `closeChannel` on a thrown on-chain
step. -/
def classifyCloseError (k : ErrKind) : String :=
  match k with
  | .approvalRejected => "Channel closing error: approval"
  | .userRejected =>
      "Transaction was rejected. Please confirm the transaction in your wallet."
  | .other msg => "Channel closing error: " ++ msg

/-- The optimistic channel record written after a confirmed deposit. -/
def depositRecord (token acct : String) (amount : Nat) (now : Nat) : ChannelState :=
  { isOpen := true
    balance := formatUnits18 amount
    tokenAddress := token
    channelId := channelKey token acct
    lastUpdate := now }

/-- The `openChannel(params)`: require signer and account; on a confirmed
deposit overwrite the channel record wholesale as open with
`balance = formatUnits(amount, 18)`; on a thrown step return the
classified failure with the state untouched. -/
def openChannel (token : String) (amount : Nat) (outcome : ChainOutcome)
    (now : Nat) (s : SDKState) : SDKState × ChannelResult :=
  match s.walletClient, s.authState.account with
  | some _, some acct =>
      (match outcome with
      | .success tx =>
          let k := channelKey token acct
          ({ s with channels := insertChannel s.channels k (depositRecord token acct amount now) },
            { success := true, channelId := some k, txHash := some tx, error := none })
      | .failure kind =>
          (s, { success := false, channelId := none, txHash := none
                error := some (classifyDepositError kind) }))
  | _, _ =>
      (s, { success := false, channelId := none, txHash := none
            error := some "Wallet not connected" })

/-- The `depositToChannel(tokenAddress, amount)`: like `openChannel` but also
requires an authenticated session with a session key. -/
def depositToChannel (token : String) (amount : Nat) (outcome : ChainOutcome)
    (now : Nat) (s : SDKState) : SDKState × ChannelResult :=
  match s.walletClient, s.authState.account with
  | some _, some _ =>
      if s.authState.isAuthenticated = false ∨ s.authState.sessionKey = none then
        (s, { success := false, channelId := none, txHash := none
              error := some "Not authenticated with Yellow Network" })
      else openChannel token amount outcome now s
  | _, _ =>
      (s, { success := false, channelId := none, txHash := none
            error := some "Wallet not connected" })

/-- The `closeChannel(params)`: require signer and account; on a confirmed
withdrawal, when a record is tracked under the key, close it
(`isOpen := false`, balance zero) when the tracked balance is at most the
withdrawn amount, else decrement the balance; the record itself is never
removed. -/
def closeChannel (token : String) (amount : Nat) (outcome : ChainOutcome)
    (now : Nat) (s : SDKState) : SDKState × ChannelResult :=
  match s.walletClient, s.authState.account with
  | some _, some acct =>
      (match outcome with
      | .success tx =>
          let k := channelKey token acct
          let wAmt := formatUnits18 amount
          let s1 : SDKState :=
            match lookupChannel s.channels k with
            | some ch =>
                let ch1 : ChannelState :=
                  if ch.balance ≤ wAmt then
                    { ch with isOpen := false, balance := 0, lastUpdate := now }
                  else
                    { ch with balance := ch.balance - wAmt, lastUpdate := now }
                { s with channels := insertChannel s.channels k ch1 }
            | none => s
          (s1, { success := true, channelId := some k, txHash := some tx, error := none })
      | .failure kind =>
          (s, { success := false, channelId := none, txHash := none
                error := some (classifyCloseError kind) }))
  | _, _ =>
      (s, { success := false, channelId := none, txHash := none
            error := some "Wallet not connected" })

/-- Outcome of the custody-contract `getAccountsBalances` read. -/
inductive ReadOutcome where
  | ok (wei : Nat)
  | fail
deriving DecidableEq, Repr

/-- The `getChannelBalance`: a missing user address throws inside the `try`
and the `catch` returns the zero string, as does a failing chain read;
a successful read returns `formatUnits(balance, 18)`. -/
def getChannelBalance (user : Option String) (read : ReadOutcome) : ℚ :=
  match user with
  | none => 0
  | some _ =>
      match read with
      | .ok wei => formatUnits18 wei
      | .fail => 0

/-- The `refreshChannelBalances()`: no-op without an account; otherwise
re-read every open channel (`reads` gives each read's outcome) and
overwrite its tracked balance with the result, leaving closed channels
untouched. -/
def refreshChannelBalances (reads : String → ReadOutcome) (now : Nat)
    (s : SDKState) : SDKState :=
  match s.authState.account with
  | none => s
  | some acct =>
      { s with
        channels :=
          s.channels.map (fun p =>
            if p.2.isOpen then
              (p.1,
                { p.2 with
                  balance := getChannelBalance (some acct) (reads p.1)
                  lastUpdate := now })
            else p) }

/-- The `signSessionData`: throws without a signer and an account; otherwise
the wallet either signs or rejects (`signOk`). -/
def signSessionDataOk (signOk : Bool) (s : SDKState) : Bool :=
  s.walletClient.isSome && s.authState.account.isSome && signOk

/-- The `createSwapSession`: require authentication; sign the session payload
(a throw is caught and returned as a failure with nothing tracked), send
the creation frame, then track exactly this one session as `created`. -/
def createSwapSession (fromToken toToken : String) (amount : Nat)
    (chainId : Option Nat) (now : Nat) (sid : String) (signOk : Bool)
    (s : SDKState) : SDKState × Bool :=
  if s.authState.isAuthenticated = false ∨ s.authState.sessionKey = none then
    (s, false)
  else if signSessionDataOk signOk s then
    let sess : SwapSession :=
      { sessionId := sid
        participant := s.authState.account.getD ""
        fromToken := fromToken
        toToken := toToken
        amount := toString amount
        chainId := chainId.getD 137
        timestamp := now
        expire := now + 30 * 60 * 1000
        status := .created
        channelId := none
        swapId := none }
    ({ sendMessage (.swapSessionCreate sid) s with activeSwapSession := some sess }, true)
  else (s, false)

/-- The `createSwapChannel`: require the tracked session to match; delegate
to `depositToChannel`; on its success stamp the session with the channel
and advance it to `channel_created`, then sign and send the linkage
notification (a signing throw is caught after those mutations and turns
the returned result into a failure). -/
def createSwapChannel (sid : String) (token : String) (amount : Nat)
    (outcome : ChainOutcome) (now : Nat) (signOk : Bool) (s : SDKState) :
    SDKState × ChannelResult :=
  match s.activeSwapSession with
  | some sess =>
      if sess.sessionId = sid then
        let (s1, res) := depositToChannel token amount outcome now s
        if res.success then
          let sess1 : SwapSession :=
            { sess with channelId := res.channelId, status := .channel_created }
          let s2 : SDKState := { s1 with activeSwapSession := some sess1 }
          if signSessionDataOk signOk s2 then
            (sendMessage (.swapChannelCreated sid) s2, res)
          else
            (s2, { success := false, channelId := none, txHash := none
                   error := some "Channel creation failed" })
        else (s1, res)
      else
        (s, { success := false, channelId := none, txHash := none
              error := some "Invalid or expired session" })
  | none =>
      (s, { success := false, channelId := none, txHash := none
            error := some "Invalid or expired session" })

/-- The synchronous part of `sendSwapRequest`: require the tracked session
to match, sign and send the swap-request frame (a signing throw is caught
and returned as a failure), stamp the session with the swap id and advance
it to `swap_initiated`.  The subsequent `waitForSwapResponse` is modelled
separately by `SwapWaitState`. -/
def sendSwapRequestSync (sid swapId : String) (signOk : Bool) (s : SDKState) :
    SDKState × Bool :=
  match s.activeSwapSession with
  | some sess =>
      if sess.sessionId = sid then
        if signSessionDataOk signOk s then
          let s1 := sendMessage (.initiateSwap sid swapId) s
          ({ s1 with
             activeSwapSession :=
               some { sess with swapId := some swapId, status := .swap_initiated } },
            true)
        else (s, false)
      else (s, false)
  | none => (s, false)

/-- An inbound frame after `JSON.parse` succeeded, classified by what
`parseAnyRPCResponse` makes of it and which dispatch case it then hits.
External outcomes of the handler bodies ride along as parameters:
`signOk` for the interactive challenge signature, `fetchOk` for the
balance-request builder after auth success, `fresh` for the session key
regenerated by `handleError`. -/
inductive InboundMsg where
  | authChallenge (signOk : Bool)
  | authVerify (success : Bool) (jwt : Option String) (fetchOk : Bool)
  | ledgerBalances (bs : List (String × String))
  | balanceUpdate (bs : List (String × String))
  | transferResp
  | errorMsg (fresh : SessionKey)
  | unknown
  | rpcUnparsable
deriving Repr

/-- How processing an inbound frame terminates, seen from outside the
event loop. -/
inductive MsgOutcome where
  | handled
  | unhandledRejection
deriving DecidableEq, Repr

/-- The `handleMessage(data)`: `parseAnyRPCResponse` runs before the `try`
block, so a frame it rejects makes the async function's promise reject
with the state untouched; every parsed frame is dispatched inside the
`try`, whose `catch` swallows handler throws (such as the
missing-prerequisites throw of `handleAuthChallenge`) and only notifies
error listeners. -/
def handleMessage (m : InboundMsg) (s : SDKState) : SDKState × MsgOutcome :=
  match m with
  | .rpcUnparsable => (s, .unhandledRejection)
  | .authChallenge signOk => ((handleAuthChallenge signOk s).1, .handled)
  | .authVerify success jwt fetchOk =>
      if success then (handleAuthSuccess jwt fetchOk s, .handled) else (s, .handled)
  | .ledgerBalances bs => (handleBalanceResponse bs s, .handled)
  | .balanceUpdate bs => (handleBalanceUpdate bs s, .handled)
  | .transferResp => (handleTransferResponse s, .handled)
  | .errorMsg fresh => (handleError fresh s, .handled)
  | .unknown => (s, .handled)

/-- A raw frame delivered by the transport: either text `JSON.parse`
rejects, or a JSON value handed to `handleMessage`. -/
inductive RawFrame where
  | invalidJson
  | json (m : InboundMsg)
deriving Repr

/-- The `socket.onmessage` handler: its `try`/`catch` catches the
synchronous `JSON.parse` throw and logs it, but the `handleMessage(data)`
call is `async` and not awaited, so a rejection of that promise escapes
the `catch` unhandled. -/
def onMessage (f : RawFrame) (s : SDKState) : SDKState × MsgOutcome :=
  match f with
  | .invalidJson => (s, .handled)
  | .json m => handleMessage m s

/-- The resolved value of the promise returned by `waitForSwapResponse`
(and `sendSwapRequest`). -/
structure SwapResult where
  success : Bool
  swapId : Option String
  error : Option String
deriving DecidableEq, Repr

/-- The bookkeeping of one `waitForSwapResponse(swapId)` call:
whether `this.handleMessage` still points at the temporary wrapper,
whether the 60-second timer is still pending, and the value the promise
has resolved with, if any. -/
structure SwapWaitState where
  wrapperInstalled : Bool
  timerActive : Bool
  result : Option SwapResult
deriving DecidableEq, Repr

/-- State right after `waitForSwapResponse` returns its promise: timer
armed, wrapper installed over `this.handleMessage`, nothing resolved. -/
def initSwapWait : SwapWaitState :=
  { wrapperInstalled := true, timerActive := true, result := none }

/-- Promise semantics of `resolve`: only the first call settles the
promise. -/
def resolveOnce (w : SwapWaitState) (r : SwapResult) : SwapWaitState :=
  match w.result with
  | some _ => w
  | none => { w with result := some r }

/-- One event observed by a pending `waitForSwapResponse(swapId)` call:
the 60-second timer fires, or an inbound frame (with its `type`, optional
`payload.swapId`, `payload.success` and `payload.error`) reaches
`this.handleMessage`. -/
inductive WaitEvent where
  | timeoutFires
  | frame (type : String) (frameSwapId : Option String) (success : Bool)
      (error : Option String)
deriving Repr

/-- The dynamics of one `waitForSwapResponse(swapId)` call.  The timer
callback resolves the timeout failure — and nothing else: the wrapper is
not removed there.  The wrapper first delegates every frame to the
original handler (its state effects live in `handleMessage`), then on a
matching swap response clears the timer, restores `this.handleMessage`
and resolves. -/
def waitStep (swapId : String) (w : SwapWaitState) : WaitEvent → SwapWaitState
  | .timeoutFires =>
      if w.timerActive then
        { resolveOnce w { success := false, swapId := none
                          error := some "Swap response timeout" } with
          timerActive := false }
      else w
  | .frame type frameSwapId success err =>
      if w.wrapperInstalled ∧ type = "swap_response" ∧ frameSwapId = some swapId then
        let w1 : SwapWaitState := { w with timerActive := false, wrapperInstalled := false }
        if success then resolveOnce w1 { success := true, swapId := some swapId, error := none }
        else resolveOnce w1 { success := false, swapId := none
                              error := some (err.getD "Swap failed") }
      else w

/-- One atomic transition of the client: a state-mutating public call or
a delivered raw frame, each carrying the outcomes of the external steps
it awaits.  `setSignatureCallback` only stores a callback and
`sendTransaction` / `getChannels` / the getters write no modelled field,
so they are represented by `sendTransactionCall` and omitted getters. -/
inductive Event where
  | connectCall
  | open_ (nowSec : Nat) (buildOk : Bool)
  | closed
  | disconnectCall
  | authenticateCall (w : WalletClient) (acct : String) (nowSec : Nat) (buildOk : Bool)
  | logoutCall (fresh : SessionKey)
  | setCachedSignatureCall (sig : String)
  | fetchBalancesCall (buildOk : Bool)
  | transferCall (p : TransferParams) (signOk : Bool)
  | openChannelCall (token : String) (amount : Nat) (outcome : ChainOutcome) (now : Nat)
  | closeChannelCall (token : String) (amount : Nat) (outcome : ChainOutcome) (now : Nat)
  | depositToChannelCall (token : String) (amount : Nat) (outcome : ChainOutcome) (now : Nat)
  | refreshChannelBalancesCall (reads : String → ReadOutcome) (now : Nat)
  | sendTransactionCall
  | createSwapSessionCall (fromToken toToken : String) (amount : Nat)
      (chainId : Option Nat) (now : Nat) (sid : String) (signOk : Bool)
  | createSwapChannelCall (sid token : String) (amount : Nat)
      (outcome : ChainOutcome) (now : Nat) (signOk : Bool)
  | sendSwapRequestCall (sid swapId : String) (signOk : Bool)
  | inbound (f : RawFrame)

/-- The transition function: the state effect of each event, results
discarded. -/
def stepEv (e : Event) (s : SDKState) : SDKState :=
  match e with
  | .connectCall => connect s
  | .open_ nowSec buildOk => socketOpen nowSec buildOk s
  | .closed => socketClosed s
  | .disconnectCall => disconnect s
  | .authenticateCall w acct nowSec buildOk => authenticate w acct nowSec buildOk s
  | .logoutCall fresh => logout fresh s
  | .setCachedSignatureCall sig => { s with cachedSignature := some sig }
  | .fetchBalancesCall buildOk => (fetchBalances buildOk s).1
  | .transferCall p signOk => (transfer p signOk s).1
  | .openChannelCall token amount outcome now => (openChannel token amount outcome now s).1
  | .closeChannelCall token amount outcome now => (closeChannel token amount outcome now s).1
  | .depositToChannelCall token amount outcome now =>
      (depositToChannel token amount outcome now s).1
  | .refreshChannelBalancesCall reads now => refreshChannelBalances reads now s
  | .sendTransactionCall => s
  | .createSwapSessionCall ft tt amount chainId now sid signOk =>
      (createSwapSession ft tt amount chainId now sid signOk s).1
  | .createSwapChannelCall sid token amount outcome now signOk =>
      (createSwapChannel sid token amount outcome now signOk s).1
  | .sendSwapRequestCall sid swapId signOk => (sendSwapRequestSync sid swapId signOk s).1
  | .inbound f => (onMessage f s).1

/-- The states a client can be in: a constructed instance, closed under
every public call and every delivered frame. -/
inductive Reachable : SDKState → Prop where
  | init (cfg : Config) (storedKey : Option SessionKey) (storedJWT : Option String)
      (fresh : SessionKey) : Reachable (initialState cfg storedKey storedJWT fresh)
  | step {s : SDKState} (e : Event) : Reachable s → Reachable (stepEv e s)

/-- Recognizer for step-1 auth-request frames, for counting the frames an
attempt sends. -/
def isAuthRequestFrame : Frame → Bool
  | .authRequest _ _ _ _ _ _ => true
  | _ => false

/-- Every frame the client has handed to `sendMessage`, written or
queued, in order. -/
def sentOrQueued (s : SDKState) : List Frame :=
  s.sentFrames ++ s.messageQueue

/-- A concrete configuration for the scenario states below. -/
def cfgEx : Config :=
  { wsUrl := "wss://clearnet.example/ws", appName := "App", scope := "trading"
    sessionDuration := some 3600 }

/-- A concrete session key. -/
def keyEx : SessionKey := { privateKey := "0xpriv", address := "0xsess" }

/-- A concrete wallet. -/
def walletEx : WalletClient := { accountAddress := some "0xacct" }

/-- Fresh client, no stored credentials. -/
def sFresh : SDKState := initialState cfgEx none none keyEx

/-- Fresh client after `connect()` and the socket opening: `Connected`,
nothing sent (auto-authentication has no account yet). -/
def sConnected : SDKState :=
  stepEv (.open_ 1000 true) (stepEv .connectCall sFresh)

/-- The `sConnected` after one `authenticate(walletEx, "0xacct")` call: one
auth-request frame sent, attempt in flight, no challenge yet. -/
def sOneAuth : SDKState :=
  stepEv (.authenticateCall walletEx "0xacct" 1000 true) sConnected

/-- The `sOneAuth` after a second `authenticate` call in quick succession,
still before any challenge frame. -/
def sTwoAuth : SDKState :=
  stepEv (.authenticateCall walletEx "0xacct" 1001 true) sOneAuth

/-- Fresh client that received an unsolicited successful auth-verify
frame before any `authenticate` call. -/
def sSpoofedVerify : SDKState :=
  stepEv (.inbound (.json (.authVerify true none true))) sFresh

/-- A concrete authenticated, connected, idle state. -/
def sAuthed : SDKState :=
  { sFresh with
    connectionStatus := .Connected
    walletClient := some walletEx
    authState :=
      { isAuthenticated := true, isAuthAttempted := true
        sessionKey := some keyEx, account := some "0xacct" } }

/-- The `sAuthed` with a transfer outstanding. -/
def sMidTransfer : SDKState := { sAuthed with isTransferring := true }

/-- A concrete tracked open channel with balance 5 under the USDC
token. -/
def chEx : ChannelState :=
  { isOpen := true, balance := 5, tokenAddress := "0xUSDC"
    channelId := channelKey "0xUSDC" "0xacct", lastUpdate := 0 }

/-- The `sAuthed` tracking the concrete channel `chEx`. -/
def sWithChannel : SDKState :=
  { sAuthed with channels := [(channelKey "0xUSDC" "0xacct", chEx)] }

/-- Concrete transfer parameters. -/
def pEx : TransferParams := { recipient := "0xdest", amount := "1.5", asset := none }

/-! ## Helper lemmas -/

theorem authState_sendMessage (f : Frame) (s : SDKState) :
    (sendMessage f s).authState = s.authState := by
  unfold sendMessage
  split <;> rfl

theorem isSome_initSessionKey (fresh : SessionKey) (s : SDKState) :
    (initSessionKey fresh s).authState.sessionKey.isSome := by
  unfold initSessionKey
  cases s.storedSessionKey <;> simp

/-! ## C3: swap-response timeout and the correlation filter -/

/-- C3: when no matching swap-response frame arrives and the 60-second
timer fires, `waitForSwapResponse` resolves with `success = false` and
the error "Swap response timeout" — but the temporary wrapper installed
over `this.handleMessage` is NOT removed on that path: the timer callback
only resolves, so the filter stays installed.  This refutes the clause of
the claim that the filter is removed on whichever of response/timeout
happens first. -/
theorem waitForSwapResponse_timeout_keeps_filter :
    waitStep "swap-1" initSwapWait .timeoutFires =
      { wrapperInstalled := true, timerActive := false
        result := some { success := false, swapId := none
                         error := some "Swap response timeout" } } := by
  rfl

/-! ## C4: transfer mutual exclusion -/

/-- C4: in an authenticated state with the in-flight flag already set,
`transfer` returns synchronously with `success = false` and the message
"Transfer already in progress", sends no frame and leaves the whole state
unchanged. -/
theorem transfer_rejected_while_in_flight (p : TransferParams) (signOk : Bool)
    (s : SDKState) (k : SessionKey)
    (hAuth : s.authState.isAuthenticated = true)
    (hKey : s.authState.sessionKey = some k)
    (hFlag : s.isTransferring = true) :
    transfer p signOk s =
      (s, { success := false, error := some "Transfer already in progress" }) := by
  simp [transfer, hAuth, hKey, hFlag]

/-- C4 witness: the mutual-exclusion rejection at a concrete mid-transfer
state. -/
theorem transfer_rejected_while_in_flight_witness :
    sMidTransfer.authState.isAuthenticated = true ∧
    sMidTransfer.authState.sessionKey = some keyEx ∧
    sMidTransfer.isTransferring = true ∧
    transfer pEx true sMidTransfer =
      (sMidTransfer, { success := false, error := some "Transfer already in progress" }) :=
  ⟨rfl, rfl, rfl, transfer_rejected_while_in_flight pEx true sMidTransfer keyEx rfl rfl rfl⟩

/-! ## C5: in-flight flag recovery on a local throw -/

/-- C5: when the local request-construction/signing step of `transfer`
throws, the call returns `success = false` and the in-flight flag is
false immediately after the call returns. -/
theorem transfer_flag_cleared_on_local_throw (p : TransferParams)
    (s : SDKState) (k : SessionKey)
    (hAuth : s.authState.isAuthenticated = true)
    (hKey : s.authState.sessionKey = some k)
    (hFlag : s.isTransferring = false) :
    (transfer p false s).2.success = false ∧
    (transfer p false s).1.isTransferring = false := by
  simp [transfer, hAuth, hKey, hFlag]

/-- C5 witness: the flag recovery at a concrete authenticated idle
state. -/
theorem transfer_flag_cleared_on_local_throw_witness :
    sAuthed.authState.isAuthenticated = true ∧
    sAuthed.isTransferring = false ∧
    (transfer pEx false sAuthed).2.success = false ∧
    (transfer pEx false sAuthed).1.isTransferring = false := by
  refine ⟨rfl, rfl, ?_⟩
  exact transfer_flag_cleared_on_local_throw pEx sAuthed keyEx rfl rfl rfl

/-! ## C7: inbound frames that fail parsing -/

/-- C7: a frame `JSON.parse` rejects is caught and only logged by the
`onmessage` wrapper, with no state change; but a frame that is valid JSON
and fails structured RPC parsing makes the async `handleMessage` promise
reject — `parseAnyRPCResponse` runs before the internal `try`, and
`onmessage` neither awaits the call nor attaches a rejection handler —
so the parse failure escapes the inbound path as an unhandled rejection
(the state is still not mutated).  This refutes the no-uncaught-exception
clause of the claim. -/
theorem inbound_parse_failure_outcomes (s : SDKState) :
    onMessage (.json .rpcUnparsable) s = (s, .unhandledRejection) ∧
    onMessage .invalidJson s = (s, .handled) :=
  ⟨rfl, rfl⟩

/-! ## C1: double authentication attempts -/

/-- C1 counterexample: from a connected state with an attempt already in
flight and no challenge received (`sOneAuth`: one auth-request frame on
the wire, `isAuthAttempted = true`), a second `authenticate` call sends a
second auth-request frame — `authenticate` reaches
`startAuthentication` without consulting `isAuthAttempted`, so the claim
that exactly one frame is sent is false. -/
theorem authenticate_twice_sends_two_requests :
    sOneAuth.connectionStatus = .Connected ∧
    sOneAuth.authState.isAuthAttempted = true ∧
    sOneAuth.sentFrames.countP (fun f => isAuthRequestFrame f) = 1 ∧
    sTwoAuth.sentFrames.countP (fun f => isAuthRequestFrame f) = 2 :=
  ⟨rfl, rfl, rfl, rfl⟩

/-- C1 amended: only the auto-authentication path is guarded — while
`isAuthAttempted` is true, `tryAutoAuthenticate` never starts an attempt,
leaving the state unchanged and sending no frame.  (A direct
`authenticate` call while connected starts a new attempt regardless, as
the counterexample shows.) -/
theorem no_auto_auth_attempt_while_attempted (nowSec : Nat) (buildOk : Bool)
    (s : SDKState) (h : s.authState.isAuthAttempted = true) :
    tryAutoAuthenticate nowSec buildOk s = s := by
  unfold tryAutoAuthenticate
  rw [if_neg]
  simp [h]

/-- C1 witness: the auto-authentication guard at the concrete in-flight
state. -/
theorem no_auto_auth_attempt_while_attempted_witness :
    sOneAuth.authState.isAuthAttempted = true ∧
    tryAutoAuthenticate 1002 true sOneAuth = sOneAuth :=
  ⟨rfl, no_auto_auth_attempt_while_attempted 1002 true sOneAuth rfl⟩

/-! ## C6: expiry consistency across the two handshake steps -/

/-- C6: for an attempt started while connected, the auth-request frame of
step 1 and the structured signature payload built by
`handleAuthChallenge` in step 2 carry the identical expiry string
`expireString nowSec config` — the value is computed once, stored in
`sessionExpireTimestamp`, embedded in the frame, and reread verbatim when
the challenge arrives. -/
theorem auth_expiry_consistent (s : SDKState) (acct : String) (key : SessionKey)
    (w : WalletClient) (nowSec : Nat)
    (ha : s.authState.account = some acct)
    (hk : s.authState.sessionKey = some key)
    (hw : s.walletClient = some w)
    (hc : s.connectionStatus = .Connected)
    (he : expireString nowSec s.config ≠ "") :
    (startAuthentication nowSec true s).sentFrames =
      s.sentFrames ++
        [Frame.authRequest acct key.address s.config.appName
          (expireString nowSec s.config) s.config.scope acct] ∧
    mkChallengePayload (startAuthentication nowSec true s) =
      some { scope := s.config.scope, application := w.accountAddress
             participant := key.address, expire := expireString nowSec s.config } := by
  unfold startAuthentication
  rw [ha, hk]
  constructor
  · simp [sendMessage, hc]
  · simp [mkChallengePayload, sendMessage, hc, hw, hk, ha, he]

/-- C6 witness: the shared expiry string at a concrete connected
authenticatable state (`expireString 1000 cfgEx` is "4600"). -/
theorem auth_expiry_consistent_witness :
    sAuthed.authState.account = some "0xacct" ∧
    sAuthed.connectionStatus = .Connected ∧
    (startAuthentication 1000 true sAuthed).sentFrames =
      sAuthed.sentFrames ++
        [Frame.authRequest "0xacct" keyEx.address cfgEx.appName
          (expireString 1000 cfgEx) cfgEx.scope "0xacct"] ∧
    mkChallengePayload (startAuthentication 1000 true sAuthed) =
      some { scope := cfgEx.scope, application := walletEx.accountAddress
             participant := keyEx.address, expire := expireString 1000 cfgEx } := by
  refine ⟨rfl, rfl, ?_⟩
  exact auth_expiry_consistent sAuthed "0xacct" keyEx walletEx 1000 rfl rfl rfl rfl
    (by decide)

/-! ## Channel-table lemmas -/

theorem lookupChannel_insertChannel_self (l : List (String × ChannelState))
    (k : String) (v : ChannelState) :
    lookupChannel (insertChannel l k v) k = some v := by
  induction l with
  | nil => simp [insertChannel, lookupChannel, List.find?]
  | cons p tl ih =>
      by_cases h : p.1 = k
      · simp [insertChannel, lookupChannel, List.find?, h]
      · simpa [insertChannel, lookupChannel, List.find?, h] using ih

/-! ## C8: withdrawal semantics of closeChannel -/

/-- C8: a confirmed `closeChannel` withdrawal against a tracked open
channel record succeeds, never deletes the record, and updates it by the
withdraw-to-zero rule: an amount at least the tracked balance closes the
channel with balance zero, a smaller amount decrements the balance and
leaves the channel open. -/
theorem closeChannel_withdraw_semantics (s : SDKState)
    (token acct tx : String) (amount now : Nat) (ch : ChannelState)
    (w : WalletClient)
    (hw : s.walletClient = some w) (ha : s.authState.account = some acct)
    (hch : lookupChannel s.channels (channelKey token acct) = some ch)
    (hopen : ch.isOpen = true) :
    (closeChannel token amount (.success tx) now s).2.success = true ∧
    (formatUnits18 amount ≥ ch.balance →
      lookupChannel (closeChannel token amount (.success tx) now s).1.channels
          (channelKey token acct) =
        some { ch with isOpen := false, balance := 0, lastUpdate := now }) ∧
    (formatUnits18 amount < ch.balance →
      lookupChannel (closeChannel token amount (.success tx) now s).1.channels
          (channelKey token acct) =
        some { ch with
               isOpen := true
               balance := ch.balance - formatUnits18 amount
               lastUpdate := now }) := by
  unfold closeChannel
  rw [hw, ha]
  refine ⟨by simp, ?_, ?_⟩
  · intro hge
    have hle : ch.balance ≤ formatUnits18 amount := hge
    simp only [hch, hle, if_pos]
    simpa using lookupChannel_insertChannel_self s.channels (channelKey token acct)
      { ch with isOpen := false, balance := 0, lastUpdate := now }
  · intro hlt
    have hnle : ¬ ch.balance ≤ formatUnits18 amount := not_le.mpr hlt
    simp only [hch, hnle, if_neg, if_false]
    have hx := lookupChannel_insertChannel_self s.channels (channelKey token acct)
      { ch with balance := ch.balance - formatUnits18 amount, lastUpdate := now }
    have hrec :
        ({ ch with balance := ch.balance - formatUnits18 amount, lastUpdate := now }
            : ChannelState) =
          { ch with
            isOpen := true
            balance := ch.balance - formatUnits18 amount
            lastUpdate := now } := by
      cases ch
      simp_all
    simpa [hrec] using hx

/-- C8 witness: the withdrawal semantics at the concrete tracked channel
`chEx` (balance 5), withdrawing 5 units. -/
theorem closeChannel_withdraw_semantics_witness :
    sWithChannel.walletClient = some walletEx ∧
    lookupChannel sWithChannel.channels (channelKey "0xUSDC" "0xacct") = some chEx ∧
    ((closeChannel "0xUSDC" (5 * 10 ^ 18) (.success "0xtx") 7 sWithChannel).2.success = true ∧
    (formatUnits18 (5 * 10 ^ 18) ≥ chEx.balance →
      lookupChannel
          (closeChannel "0xUSDC" (5 * 10 ^ 18) (.success "0xtx") 7 sWithChannel).1.channels
          (channelKey "0xUSDC" "0xacct") =
        some { chEx with isOpen := false, balance := 0, lastUpdate := 7 }) ∧
    (formatUnits18 (5 * 10 ^ 18) < chEx.balance →
      lookupChannel
          (closeChannel "0xUSDC" (5 * 10 ^ 18) (.success "0xtx") 7 sWithChannel).1.channels
          (channelKey "0xUSDC" "0xacct") =
        some { chEx with
               isOpen := true
               balance := chEx.balance - formatUnits18 (5 * 10 ^ 18)
               lastUpdate := 7 })) := by
  refine ⟨rfl, by decide, ?_⟩
  exact closeChannel_withdraw_semantics sWithChannel "0xUSDC" "0xacct" "0xtx"
    (5 * 10 ^ 18) 7 chEx walletEx rfl rfl (by decide) rfl

/-! ## C9: deposits overwrite the tracked channel balance -/

theorem depositToChannel_success_state (s : SDKState) (token tx : String)
    (amount now : Nat) (w : WalletClient) (acct : String) (key : SessionKey)
    (hw : s.walletClient = some w) (ha : s.authState.account = some acct)
    (hAuth : s.authState.isAuthenticated = true)
    (hKey : s.authState.sessionKey = some key) :
    (depositToChannel token amount (.success tx) now s).1 =
      { s with
        channels :=
          insertChannel s.channels (channelKey token acct)
            (depositRecord token acct amount now) } := by
  simp [depositToChannel, openChannel, hw, ha, hAuth, hKey]

/-- C9: two confirmed sequential deposits of amounts `A` then `B` to the
same token/account key leave the tracked record with `isOpen = true` and
balance `formatUnits(B, 18)` — the record is overwritten wholesale, not
accumulated to `A + B`. -/
theorem deposit_twice_overwrites_balance (s : SDKState) (token tx1 tx2 : String)
    (A B now1 now2 : Nat) (w : WalletClient) (acct : String) (key : SessionKey)
    (hw : s.walletClient = some w) (ha : s.authState.account = some acct)
    (hAuth : s.authState.isAuthenticated = true)
    (hKey : s.authState.sessionKey = some key) :
    lookupChannel
        ((depositToChannel token B (.success tx2) now2
            (depositToChannel token A (.success tx1) now1 s).1).1).channels
        (channelKey token acct) =
      some { isOpen := true, balance := formatUnits18 B, tokenAddress := token
             channelId := channelKey token acct, lastUpdate := now2 } := by
  have h1 := depositToChannel_success_state s token tx1 A now1 w acct key hw ha hAuth hKey
  have hw1 : (depositToChannel token A (.success tx1) now1 s).1.walletClient = some w := by
    rw [h1]; exact hw
  have ha1 : (depositToChannel token A (.success tx1) now1 s).1.authState.account =
      some acct := by
    rw [h1]; exact ha
  have hAuth1 :
      (depositToChannel token A (.success tx1) now1 s).1.authState.isAuthenticated =
        true := by
    rw [h1]; exact hAuth
  have hKey1 : (depositToChannel token A (.success tx1) now1 s).1.authState.sessionKey =
      some key := by
    rw [h1]; exact hKey
  rw [depositToChannel_success_state _ token tx2 B now2 w acct key hw1 ha1 hAuth1 hKey1]
  exact lookupChannel_insertChannel_self _ _ _

/-- C9 witness: depositing 1 then 2 units leaves the tracked balance at
`formatUnits18 (2 * 10 ^ 18)`, not the sum. -/
theorem deposit_twice_overwrites_balance_witness :
    sAuthed.walletClient = some walletEx ∧
    sAuthed.authState.isAuthenticated = true ∧
    lookupChannel
        ((depositToChannel "0xUSDC" (2 * 10 ^ 18) (.success "0xtx2") 9
            (depositToChannel "0xUSDC" (10 ^ 18) (.success "0xtx1") 8 sAuthed).1).1).channels
        (channelKey "0xUSDC" "0xacct") =
      some { isOpen := true, balance := formatUnits18 (2 * 10 ^ 18)
             tokenAddress := "0xUSDC", channelId := channelKey "0xUSDC" "0xacct"
             lastUpdate := 9 } := by
  refine ⟨rfl, rfl, ?_⟩
  exact deposit_twice_overwrites_balance sAuthed "0xUSDC" "0xtx1" "0xtx2"
    (10 ^ 18) (2 * 10 ^ 18) 8 9 walletEx "0xacct" keyEx rfl rfl rfl rfl

/-! ## C10: getChannelBalance totality and the refresh sweep -/

theorem lookupChannel_refresh (reads : String → ReadOutcome) (now : Nat)
    (acct : String) (l : List (String × ChannelState)) (k : String)
    (ch : ChannelState) (h : lookupChannel l k = some ch) :
    lookupChannel
        (l.map (fun p =>
          if p.2.isOpen then
            (p.1,
              { p.2 with
                balance := getChannelBalance (some acct) (reads p.1)
                lastUpdate := now })
          else p)) k =
      some (if ch.isOpen then
              { ch with
                balance := getChannelBalance (some acct) (reads k)
                lastUpdate := now }
            else ch) := by
  induction l with
  | nil => simp [lookupChannel, List.find?] at h
  | cons p tl ih =>
      by_cases hk : p.1 = k
      · have hch : p.2 = ch := by
          simpa [lookupChannel, List.find?, hk] using h
        subst hch
        subst hk
        by_cases ho : p.2.isOpen <;>
          simp [lookupChannel, List.find?, ho]
      · have h' : lookupChannel tl k = some ch := by
          simpa [lookupChannel, List.find?, hk] using h
        have := ih h'
        by_cases ho : p.2.isOpen <;>
          simpa [lookupChannel, List.find?, hk, ho] using this

/-- C10: `getChannelBalance` is total and returns zero both when no user
address is available and when the chain read fails; consequently
`refreshChannelBalances` sweeps every tracked channel — a failing read
does not abort the loop — updating each open channel with its own read
result (zero for the failed one) and leaving closed channels untouched. -/
theorem getChannelBalance_total_refresh_sweeps (s : SDKState)
    (reads : String → ReadOutcome) (now : Nat) (acct : String)
    (ha : s.authState.account = some acct) :
    (∀ u : Option String, getChannelBalance u .fail = 0) ∧
    (∀ r : ReadOutcome, getChannelBalance none r = 0) ∧
    (∀ k ch, lookupChannel s.channels k = some ch →
      lookupChannel (refreshChannelBalances reads now s).channels k =
        some (if ch.isOpen then
                { ch with
                  balance := getChannelBalance (some acct) (reads k)
                  lastUpdate := now }
              else ch)) := by
  refine ⟨?_, ?_, ?_⟩
  · intro u
    cases u <;> rfl
  · intro r
    rfl
  · intro k ch h
    unfold refreshChannelBalances
    rw [ha]
    exact lookupChannel_refresh reads now acct s.channels k ch h

/-- C10 witness: the sweep at the concrete tracked channel with a failing
read — the open channel is overwritten with balance zero. -/
theorem getChannelBalance_total_refresh_sweeps_witness :
    sWithChannel.authState.account = some "0xacct" ∧
    lookupChannel sWithChannel.channels (channelKey "0xUSDC" "0xacct") = some chEx ∧
    lookupChannel
        (refreshChannelBalances (fun _ => .fail) 11 sWithChannel).channels
        (channelKey "0xUSDC" "0xacct") =
      some (if chEx.isOpen then
              { chEx with
                balance :=
                  getChannelBalance (some "0xacct")
                    ((fun _ => ReadOutcome.fail) (channelKey "0xUSDC" "0xacct"))
                lastUpdate := 11 }
            else chEx) := by
  refine ⟨rfl, by decide, ?_⟩
  exact (getChannelBalance_total_refresh_sweeps sWithChannel (fun _ => .fail) 11
    "0xacct" rfl).2.2 (channelKey "0xUSDC" "0xacct") chEx (by decide)

/-! ## Preservation lemmas for the session key across every transition -/

theorem sessionKey_startAuthentication (n : Nat) (b : Bool) (s : SDKState) :
    (startAuthentication n b s).authState.sessionKey = s.authState.sessionKey := by
  unfold startAuthentication
  rcases ha : s.authState.account with _ | acct <;>
    rcases hk : s.authState.sessionKey with _ | key <;>
    cases b <;>
    simp [ha, hk, authState_sendMessage]

theorem sessionKey_authenticate (w : WalletClient) (a : String) (n : Nat) (b : Bool)
    (s : SDKState) :
    (authenticate w a n b s).authState.sessionKey = s.authState.sessionKey := by
  unfold authenticate
  dsimp only
  split
  · rw [sessionKey_startAuthentication]
  · rfl

theorem sessionKey_tryAutoAuthenticate (n : Nat) (b : Bool) (s : SDKState) :
    (tryAutoAuthenticate n b s).authState.sessionKey = s.authState.sessionKey := by
  unfold tryAutoAuthenticate
  split
  · exact sessionKey_startAuthentication n b s
  · rfl

theorem sessionKey_socketOpen (n : Nat) (b : Bool) (s : SDKState) :
    (socketOpen n b s).authState.sessionKey = s.authState.sessionKey := by
  unfold socketOpen
  rw [sessionKey_tryAutoAuthenticate]

theorem authState_fetchBalances (b : Bool) (s : SDKState) :
    (fetchBalances b s).1.authState = s.authState := by
  unfold fetchBalances
  rcases ha : s.authState.account with _ | acct
  · rfl
  · simp only [ha]
    split
    · split
      · rw [authState_sendMessage]
      · rfl
    · rfl

theorem sessionKey_handleAuthSuccess (j : Option String) (f : Bool) (s : SDKState) :
    (handleAuthSuccess j f s).authState.sessionKey = s.authState.sessionKey := by
  unfold handleAuthSuccess
  rw [authState_fetchBalances]
  cases j <;> rfl

theorem sessionKey_handleAuthChallenge (ok : Bool) (s : SDKState) :
    (handleAuthChallenge ok s).1.authState.sessionKey = s.authState.sessionKey := by
  unfold handleAuthChallenge
  rcases hp : mkChallengePayload s with _ | p <;> cases ok <;>
    simp [authState_sendMessage]

theorem isSome_sessionKey_handleError (fresh : SessionKey) (s : SDKState)
    (h : s.authState.sessionKey.isSome) :
    (handleError fresh s).authState.sessionKey.isSome := by
  unfold handleError
  split
  · exact h
  · exact isSome_initSessionKey fresh _

theorem isSome_sessionKey_logout (fresh : SessionKey) (s : SDKState) :
    (logout fresh s).authState.sessionKey.isSome :=
  isSome_initSessionKey fresh _

theorem authState_transfer (p : TransferParams) (ok : Bool) (s : SDKState) :
    (transfer p ok s).1.authState = s.authState := by
  unfold transfer
  split
  · rfl
  · split
    · rfl
    · cases ok <;> simp [authState_sendMessage]

theorem authState_openChannel (t : String) (a : Nat) (o : ChainOutcome) (n : Nat)
    (s : SDKState) :
    (openChannel t a o n s).1.authState = s.authState := by
  unfold openChannel
  rcases hw : s.walletClient with _ | w <;>
    rcases ha : s.authState.account with _ | acct <;>
    cases o <;> simp [hw, ha]

theorem authState_depositToChannel (t : String) (a : Nat) (o : ChainOutcome) (n : Nat)
    (s : SDKState) :
    (depositToChannel t a o n s).1.authState = s.authState := by
  unfold depositToChannel
  rcases hw : s.walletClient with _ | w <;>
    rcases ha : s.authState.account with _ | acct <;> simp [hw, ha]
  split
  · rfl
  · exact authState_openChannel t a o n s

theorem authState_closeChannel (t : String) (a : Nat) (o : ChainOutcome) (n : Nat)
    (s : SDKState) :
    (closeChannel t a o n s).1.authState = s.authState := by
  unfold closeChannel
  rcases hw : s.walletClient with _ | w <;>
    rcases ha : s.authState.account with _ | acct <;>
    cases o <;> simp [hw, ha] <;>
    rcases hl : lookupChannel s.channels _ with _ | ch <;> simp [hl] <;> split <;> rfl

theorem authState_refreshChannelBalances (reads : String → ReadOutcome) (n : Nat)
    (s : SDKState) :
    (refreshChannelBalances reads n s).authState = s.authState := by
  unfold refreshChannelBalances
  rcases ha : s.authState.account with _ | acct <;> simp [ha]

theorem authState_createSwapSession (ft tt : String) (am : Nat) (ci : Option Nat)
    (n : Nat) (sid : String) (ok : Bool) (s : SDKState) :
    (createSwapSession ft tt am ci n sid ok s).1.authState = s.authState := by
  unfold createSwapSession
  split
  · rfl
  · split
    · exact authState_sendMessage _ _
    · rfl

theorem authState_createSwapChannel (sid tok : String) (am : Nat) (o : ChainOutcome)
    (n : Nat) (ok : Bool) (s : SDKState) :
    (createSwapChannel sid tok am o n ok s).1.authState = s.authState := by
  unfold createSwapChannel
  rcases hs : s.activeSwapSession with _ | sess
  · rfl
  · simp only []
    split
    · rcases hd : depositToChannel tok am o n s with ⟨s1, res⟩
      have h1 : s1.authState = s.authState := by
        have := authState_depositToChannel tok am o n s
        rwa [hd] at this
      simp only [hd]
      split
      · split
        · exact (authState_sendMessage _ _).trans h1
        · exact h1
      · exact h1
    · rfl

theorem authState_sendSwapRequestSync (sid swapId : String) (ok : Bool)
    (s : SDKState) :
    (sendSwapRequestSync sid swapId ok s).1.authState = s.authState := by
  unfold sendSwapRequestSync
  rcases hs : s.activeSwapSession with _ | sess
  · rfl
  · simp only []
    split
    · split
      · exact authState_sendMessage _ _
      · rfl
    · rfl

theorem isSome_sessionKey_onMessage (f : RawFrame) (s : SDKState)
    (h : s.authState.sessionKey.isSome) :
    (onMessage f s).1.authState.sessionKey.isSome := by
  cases f with
  | invalidJson => exact h
  | json m =>
      cases m with
      | authChallenge ok =>
          simpa [onMessage, handleMessage, sessionKey_handleAuthChallenge] using h
      | authVerify success jwt fetchOk =>
          cases success
          · exact h
          · simpa [onMessage, handleMessage, sessionKey_handleAuthSuccess] using h
      | ledgerBalances bs => exact h
      | balanceUpdate bs => exact h
      | transferResp => exact h
      | errorMsg fresh => exact isSome_sessionKey_handleError fresh s h
      | unknown => exact h
      | rpcUnparsable => exact h

/-- The session key is present in every reachable state: the constructor,
`logout` and the auth-failure branch of `handleError` all end in
`initializeSessionKey`, and no other transition writes the field. -/
theorem sessionKey_isSome_of_reachable {s : SDKState} (h : Reachable s) :
    s.authState.sessionKey.isSome := by
  induction h with
  | init cfg sk sj fresh => exact isSome_initSessionKey fresh _
  | step e h ih =>
      cases e with
      | connectCall =>
          simp only [stepEv]
          unfold connect
          split
          · exact ih
          · split <;> exact ih
      | open_ n b => simpa [stepEv, sessionKey_socketOpen] using ih
      | closed => exact ih
      | disconnectCall => exact ih
      | authenticateCall w a n b => simpa [stepEv, sessionKey_authenticate] using ih
      | logoutCall fresh => exact isSome_sessionKey_logout fresh _
      | setCachedSignatureCall sig => exact ih
      | fetchBalancesCall b => simpa [stepEv, authState_fetchBalances] using ih
      | transferCall p ok => simpa [stepEv, authState_transfer] using ih
      | openChannelCall t a o n => simpa [stepEv, authState_openChannel] using ih
      | closeChannelCall t a o n => simpa [stepEv, authState_closeChannel] using ih
      | depositToChannelCall t a o n =>
          simpa [stepEv, authState_depositToChannel] using ih
      | refreshChannelBalancesCall reads n =>
          simpa [stepEv, authState_refreshChannelBalances] using ih
      | sendTransactionCall => exact ih
      | createSwapSessionCall ft tt am ci n sid ok =>
          simpa [stepEv, authState_createSwapSession] using ih
      | createSwapChannelCall sid tok am o n ok =>
          simpa [stepEv, authState_createSwapChannel] using ih
      | sendSwapRequestCall sid swapId ok =>
          simpa [stepEv, authState_sendSwapRequestSync] using ih
      | inbound f => exact isSome_sessionKey_onMessage f _ ih

/-! ## C2: the authenticated-state invariant -/

/-- C2 counterexample: an unsolicited successful auth-verify frame is
dispatched to `handleAuthSuccess` with no guard, so a fresh client that
never called `authenticate` reaches a state with
`isAuthenticated = true` and `account = null` — the claimed invariant
`isAuthenticated → account ≠ null` fails on a reachable state. -/
theorem spoofed_verify_authenticated_without_account :
    Reachable sSpoofedVerify ∧
    sSpoofedVerify.authState.isAuthenticated = true ∧
    sSpoofedVerify.authState.account = none :=
  ⟨Reachable.step _ (Reachable.init cfgEx none none keyEx), rfl, rfl⟩

/-- C2 amended: in every state reachable by any sequence of public calls
and inbound frames, `isAuthenticated = true` implies
`sessionKey ≠ null`.  (The `account ≠ null` conjunct of the original
claim is refuted by the counterexample: an unsolicited auth-verify
success frame authenticates a client whose account was never set.) -/
theorem reachable_isAuthenticated_sessionKey_ne_none (s : SDKState)
    (h : Reachable s) (hauth : s.authState.isAuthenticated = true) :
    s.authState.sessionKey ≠ none :=
  Option.isSome_iff_ne_none.mp (sessionKey_isSome_of_reachable h)

/-- C2 witness: the amended invariant at the concrete reachable
authenticated state. -/
theorem reachable_isAuthenticated_sessionKey_ne_none_witness :
    Reachable sSpoofedVerify ∧
    sSpoofedVerify.authState.isAuthenticated = true ∧
    sSpoofedVerify.authState.sessionKey ≠ none := by
  have hr : Reachable sSpoofedVerify :=
    Reachable.step _ (Reachable.init cfgEx none none keyEx)
  exact ⟨hr, rfl, reachable_isAuthenticated_sessionKey_ne_none sSpoofedVerify hr rfl⟩

end YellowSDK
